import Mathlib

/-!
Verification of the martel-printer-programmer workflow (src/src/main.rs).

The embedding models the program's externally visible behaviour over an
abstract environment: every call into the probe-rs capability library is
recorded as an `Action`, the run's termination is an `Outcome` (normal
return, propagated error, or panic).  The active program (lines 31-154 of
main.rs) is `activeMain`; the flashing pipeline written at lines 69-151
(commented out in the source) is `pipeline`, and `fullMain` is the run of
the whole workflow as written there.  Pure pieces — the memory-region
classification loop (lines 88-99), the identifier resolution match
(lines 70-78) and the progress handler (lines 156-176) — are embedded as
pure functions.
-/

namespace MartelProgrammer

/-- Payload of a memory region (probe-rs region data as used at
main.rs lines 95-123): optional human-readable name and an address range. -/
structure RegionInfo where
  name : Option String
  startAddr : Nat
  endAddr : Nat
deriving DecidableEq

/-- The tagged memory-region union matched at main.rs lines 95-99:
`MemoryRegion::Generic`, `MemoryRegion::Ram`, `MemoryRegion::Nvm`. -/
inductive MemoryRegion
  | Generic (r : RegionInfo)
  | Ram (r : RegionInfo)
  | Nvm (r : RegionInfo)
deriving DecidableEq

/-- Payload extractor for RAM-tagged regions. -/
def ramOf : MemoryRegion → Option RegionInfo
  | .Ram r => some r
  | _ => none

/-- Payload extractor for NonVolatile(flash)-tagged regions. -/
def nvmOf : MemoryRegion → Option RegionInfo
  | .Nvm r => some r
  | _ => none

/-- Payload extractor for Generic-tagged regions. -/
def genOf : MemoryRegion → Option RegionInfo
  | .Generic r => some r
  | _ => none

/-- The three groups built by the classification loop at main.rs
lines 88-99: the `ram`, `flash` and `generic` vectors. -/
structure Classified where
  ram : List RegionInfo
  flash : List RegionInfo
  generic : List RegionInfo
deriving DecidableEq

/-- One iteration of the `for_each` classification loop (main.rs
lines 95-99): push the region's payload onto the group chosen by its tag. -/
def classifyStep (acc : Classified) (region : MemoryRegion) : Classified :=
  match region with
  | .Generic g => { acc with generic := acc.generic ++ [g] }
  | .Ram g => { acc with ram := acc.ram ++ [g] }
  | .Nvm g => { acc with flash := acc.flash ++ [g] }

/-- The classification loop of main.rs lines 88-99: fold `classifyStep`
over the target's memory map, starting from three empty vectors. -/
def classify (regions : List MemoryRegion) : Classified :=
  regions.foldl classifyStep ⟨[], [], []⟩

/-- main.rs line 17: `const STM32F1xID: u32 = 0x1ba01477`. -/
def STM32F1xID : Nat := 0x1ba01477

/-- main.rs line 18: `const STM32F2xID: u32 = 0x2ba01477`. -/
def STM32F2xID : Nat := 0x2ba01477

/-- main.rs line 19: `const STM32L4xID: u32 = 0x2ba01477`. -/
def STM32L4xID : Nat := 0x2ba01477

/-- The string built by `format!("Unknown({})", id)` at main.rs line 77. -/
def unknownName (id : Nat) : String := "Unknown(" ++ toString id ++ ")"

/-- Result of the identification match: the chosen target name together
with the number of `add_target_from_yaml` registration calls made while
resolving it. -/
structure ResolveResult where
  name : String
  registrations : Nat
deriving DecidableEq

/-- The identification match of main.rs lines 70-78: `0x2ba01477` extracts
and registers the STM32L4 target description and selects "STM32L433RCTx";
`0x1ba01477` selects "STM32F103RC"; any other id yields `Unknown(id)`. -/
def resolve (target_id : Nat) : ResolveResult :=
  if target_id = 0x2ba01477 then ⟨"STM32L433RCTx", 1⟩
  else if target_id = 0x1ba01477 then ⟨"STM32F103RC", 0⟩
  else ⟨unknownName target_id, 0⟩

/-- One observable call the program makes into the probe-rs capability
library, or one line printed to standard output. -/
inductive Action
  | listProbes
  | openProbe (idx : Nat)
  | attachUnspecified
  | readIdentifier
  | registerTarget
  | attach (targetName : String)
  | selectCore (idx : Nat)
  | resetAndHalt
  | queryHalted
  | download
  | printLine (s : String)
deriving DecidableEq

/-- How a run of `main` terminates: a normal `Ok(())` return, a
`probe_rs::Error` propagated by `?` (tagged with the failing step), or a
Rust panic (out-of-bounds index or a failed `expect`). -/
inductive Outcome
  | ok
  | err (stage : String)
  | panic
deriving DecidableEq

/-- Abstract environment a run executes against: the discovered probes and
the result of every fallible external call.  `idRead` is the outcome of the
ROM-table identification read of lines 58-67 (`none` = the read fails,
`some none` = no chip info found, `some (some s)` = info `s` printed);
`chipId` is the raw chip identifier the commented pipeline of lines 69-151
matches on; `haltedResult` is the outcome of `core_halted()` (`none` = the
query itself fails). -/
structure Env where
  probes : List String
  openOk : Bool
  attachUnspecifiedOk : Bool
  idRead : Option (Option String)
  chipId : Nat
  open2Ok : Bool
  attachOk : Bool
  memoryMap : List MemoryRegion
  coreOk : Bool
  resetHaltOk : Bool
  haltedResult : Option Bool
  downloadOk : Bool
deriving DecidableEq

/-- One region line of the enumeration printed at main.rs lines 103-123
(the hex range formatting is elided; the name falls back to "unnamed"). -/
def regionPrint (kind : String) (r : RegionInfo) : Action :=
  .printLine ("Found " ++ kind ++ " Region => " ++ r.name.getD "unnamed")

/-- The region enumeration printed at main.rs lines 101-123: RAM lines,
then flash lines, then generic lines. -/
def regionPrints (c : Classified) : List Action :=
  c.ram.map (regionPrint "RAM") ++ c.flash.map (regionPrint "Flash")
    ++ c.generic.map (regionPrint "Generic")

/-- Lines 31-67 of main.rs: list and print the probes, open the first one
(`probe_list[0]` — an out-of-bounds panic when the list is empty), attach
unspecified, then run the ROM-table identification read.  Returns the trace
so far and `some o` when the run terminates there with outcome `o`, or
`none` when control reaches the rest of the workflow.  (In the compiled
program the `device_ids` table of lines 32-42 is built but never read, and
`target_id` is bound to `()`.) -/
def mainIdentify (env : Env) : List Action × Option Outcome :=
  let tr0 := Action.listProbes :: Action.printLine "Probes:" ::
    env.probes.map (fun p => Action.printLine ("Probe found => " ++ p))
    ++ [Action.printLine "--------------------"]
  match env.probes with
  | [] => (tr0, some .panic)
  | _ :: _ =>
    let tr1 := tr0 ++ [Action.openProbe 0]
    if env.openOk then
      let tr2 := tr1 ++ [Action.attachUnspecified]
      if env.attachUnspecifiedOk then
        let tr3 := tr2 ++ [Action.readIdentifier]
        match env.idRead with
        | none => (tr3, some (.err "Identification"))
        | some none => (tr3, none)
        | some (some info) =>
          (tr3 ++ [Action.printLine ("Info: " ++ info)], none)
      else (tr2, some (.err "Attach"))
    else (tr1, some (.err "ProbeOpen"))

/-- The compiled program as written: `mainIdentify`, then `Ok(())`
(main.rs line 153) — everything from line 69 to line 151 is commented out. -/
def activeMain (env : Env) : List Action × Outcome :=
  ((mainIdentify env).1, ((mainIdentify env).2).getD .ok)

/-- Lines 128-151 of the workflow: select core 0, reset-and-halt it, query
`core_halted()`; only a `true` answer lets the firmware download run
(`expect` panics when the download fails); a core that cannot be selected
or does not confirm halt yields the "ERROR => Failed to halt core" line and
a normal return. -/
def haltFlash (env : Env) : List Action × Outcome :=
  if env.coreOk then
    if env.resetHaltOk then
      match env.haltedResult with
      | some true =>
        if env.downloadOk then
          ([.selectCore 0, .resetAndHalt, .queryHalted, .download], .ok)
        else
          ([.selectCore 0, .resetAndHalt, .queryHalted, .download], .panic)
      | some false =>
        ([.selectCore 0, .resetAndHalt, .queryHalted,
          .printLine "ERROR => Failed to halt core"], .ok)
      | none => ([.selectCore 0, .resetAndHalt, .queryHalted],
          .err "HaltQuery")
    else ([.selectCore 0, .resetAndHalt], .err "ResetHalt")
  else ([.selectCore 0, .printLine "ERROR => Failed to halt core"], .ok)

/-- Lines 69-151 of main.rs (the workflow written there): resolve the chip
id (registering the L4 target description when needed), print the target,
re-open probe 0 and attach it to the resolved name, classify and print the
memory regions, take `flash[0]` and `ram[0]` (an out-of-bounds panic when
either group is empty), then run `haltFlash`. -/
def pipeline (env : Env) : List Action × Outcome :=
  let r := resolve env.chipId
  let tr0 := List.replicate r.registrations Action.registerTarget
    ++ [Action.printLine ("Found target: " ++ r.name), Action.openProbe 0]
  if env.open2Ok then
    let tr1 := tr0 ++ [Action.attach r.name]
    if env.attachOk then
      let c := classify env.memoryMap
      let tr2 := tr1 ++ [Action.printLine "pog"] ++ regionPrints c
      match c.flash, c.ram with
      | [], _ => (tr2, .panic)
      | _ :: _, [] => (tr2, .panic)
      | _ :: _, _ :: _ =>
        let tr3 := tr2 ++ [Action.printLine "cores"]
        (tr3 ++ (haltFlash env).1, (haltFlash env).2)
    else (tr1, .err "Attach")
  else (tr0, .err "ProbeOpen")

/-- The whole workflow as written at lines 31-153 of main.rs with the
commented block of lines 69-151 included: identification, then — when
identification succeeds — the flashing pipeline. -/
def fullMain (env : Env) : List Action × Outcome :=
  match mainIdentify env with
  | (tr, some o) => (tr, o)
  | (tr, none) => (tr ++ (pipeline env).1, (pipeline env).2)

/-- The probe-rs `ProgressEvent` variants matched at main.rs lines 158-175.
The `flash_layout` payload of `Initialized` is abstracted to a `Nat` tag;
`size` and `time` payloads keep their shape (`time` as an abstract tick
count). -/
inductive ProgressEvent
  | Initialized (flash_layout : Nat)
  | StartedFilling
  | PageFilled (size : Nat) (time : Nat)
  | FailedFilling
  | FinishedFilling
  | StartedErasing
  | SectorErased (size : Nat) (time : Nat)
  | FailedErasing
  | FinishedErasing
  | StartedProgramming
  | PageProgrammed (size : Nat) (time : Nat)
  | FailedProgramming
  | FinishedProgramming
deriving DecidableEq

/-- The progress handler of main.rs lines 156-176.  Its result is the list
of lines it prints, wrapped in `Except` so that a raised fault would be a
`.error`: the body has no fallible operation — every match arm either
prints one line or does nothing — so every arm is `.ok`. -/
def flash_progress_handler (event : ProgressEvent) :
    Except String (List String) :=
  match event with
  | .Initialized _ => .ok ["---Program Begin---"]
  | .StartedFilling => .ok ["Fill start"]
  | .PageFilled _ _ => .ok []
  | .FailedFilling => .ok ["Fill fail"]
  | .FinishedFilling => .ok ["Fill complete"]
  | .StartedErasing => .ok ["Erase start"]
  | .SectorErased _ _ => .ok []
  | .FailedErasing => .ok ["Erase fail"]
  | .FinishedErasing => .ok ["Erase complete"]
  | .StartedProgramming => .ok ["Program start"]
  | .PageProgrammed _ _ => .ok []
  | .FailedProgramming => .ok ["Program fail"]
  | .FinishedProgramming => .ok ["Program complete"]

/-- Whether a flashing stage runs to completion or fails. -/
inductive StageOutcome
  | ok
  | fail
deriving DecidableEq

/-- Modelled from the spec: the staged flashing state machine of §4.4 is
implemented inside the external flashing library
(`download_file_with_options`); this repository only subscribes to its
events (main.rs lines 141-148, 156-176).  One stage emits its start event,
its per-unit events, then its finished event on success or its failed
event on failure. -/
def stageTrace (start : ProgressEvent) (units : List ProgressEvent)
    (fin fail : ProgressEvent) (out : StageOutcome) : List ProgressEvent :=
  start :: units ++ [if out = .ok then fin else fail]

/-- Modelled from the spec: the full event trace of one flash operation per
§4.4 — `Initialized`, then the Fill stage, then (only when Fill finished)
the Erase stage, then (only when Erase finished) the Program stage; a
failed stage aborts all later stages. -/
def flashEvents (layout : Nat) (fillPages eraseSectors progPages : List (Nat × Nat))
    (fillOut eraseOut progOut : StageOutcome) : List ProgressEvent :=
  ProgressEvent.Initialized layout ::
    (stageTrace .StartedFilling (fillPages.map fun u => .PageFilled u.1 u.2)
      .FinishedFilling .FailedFilling fillOut
    ++ if fillOut = .ok then
        stageTrace .StartedErasing (eraseSectors.map fun u => .SectorErased u.1 u.2)
          .FinishedErasing .FailedErasing eraseOut
        ++ (if eraseOut = .ok then
            stageTrace .StartedProgramming (progPages.map fun u => .PageProgrammed u.1 u.2)
              .FinishedProgramming .FailedProgramming progOut
          else [])
      else [])

/-- An all-success environment: one probe, every external call succeeds,
the STM32F1 id is read, the memory map holds one flash and one RAM region,
and the core confirms halt. -/
def envBase : Env :=
  { probes := ["probe0"]
    openOk := true
    attachUnspecifiedOk := true
    idRead := some (some "STM32 info")
    chipId := 0x1ba01477
    open2Ok := true
    attachOk := true
    memoryMap := [.Nvm ⟨some "flash", 0x8000000, 0x8040000⟩,
                  .Ram ⟨some "ram", 0x20000000, 0x20010000⟩]
    coreOk := true
    resetHaltOk := true
    haltedResult := some true
    downloadOk := true }

/-- `envBase` with a core that answers the halt query with `false`. -/
def envHaltFalse : Env := { envBase with haltedResult := some false }

/-- `envBase` with a chip identifier outside the static table. -/
def envUnknownId : Env := { envBase with chipId := 5 }

/-- `envBase` with two NonVolatile regions in the memory map. -/
def envTwoFlash : Env :=
  { envBase with
    memoryMap := [.Nvm ⟨some "flashA", 0x8000000, 0x8020000⟩,
                  .Nvm ⟨some "flashB", 0x8020000, 0x8040000⟩,
                  .Ram ⟨some "ram", 0x20000000, 0x20010000⟩] }

/-- `envBase` with no NonVolatile region in the memory map. -/
def envNoFlash : Env :=
  { envBase with memoryMap := [.Ram ⟨some "ram", 0x20000000, 0x20010000⟩] }

/-- `envBase` with an empty probe list. -/
def envNoProbes : Env := { envBase with probes := [] }

/-- `envBase` where opening the probe fails. -/
def envOpenFail : Env := { envBase with openOk := false }

end MartelProgrammer

namespace MartelProgrammer

theorem classify_foldl (regions : List MemoryRegion) (acc : Classified) :
    regions.foldl classifyStep acc =
      ⟨acc.ram ++ regions.filterMap ramOf,
       acc.flash ++ regions.filterMap nvmOf,
       acc.generic ++ regions.filterMap genOf⟩ := by
  induction regions generalizing acc with
  | nil => simp
  | cons r rest ih =>
    cases r <;>
      simp [classifyStep, ramOf, nvmOf, genOf, ih, List.filterMap_cons,
        List.append_assoc]

theorem classify_eq_filterMap (regions : List MemoryRegion) :
    classify regions =
      ⟨regions.filterMap ramOf, regions.filterMap nvmOf,
       regions.filterMap genOf⟩ := by
  simpa using classify_foldl regions ⟨[], [], []⟩

theorem classify_length_sum (regions : List MemoryRegion) :
    (regions.filterMap ramOf).length + (regions.filterMap nvmOf).length
      + (regions.filterMap genOf).length = regions.length := by
  induction regions with
  | nil => rfl
  | cons r rest ih =>
    cases r <;>
      simp [ramOf, nvmOf, genOf, List.filterMap_cons] <;> omega

/-- Claim C2: memory-region classification is a total, order-preserving
partition — each group equals the order-preserving selection of the input
regions carrying its tag (so every region lands in exactly one group,
none is dropped or duplicated, and relative order is preserved within each
group), and the three group lengths sum to the input length. -/
theorem c2_classification_partition (regions : List MemoryRegion) :
    (classify regions).ram = regions.filterMap ramOf ∧
    (classify regions).flash = regions.filterMap nvmOf ∧
    (classify regions).generic = regions.filterMap genOf ∧
    (classify regions).ram.length + (classify regions).flash.length
      + (classify regions).generic.length = regions.length := by
  rw [classify_eq_filterMap regions]
  exact ⟨rfl, rfl, rfl, classify_length_sum regions⟩

/-- Concrete instance of the classification partition for a three-region
memory map. -/
theorem c2_classification_partition_witness :
    (classify [MemoryRegion.Nvm ⟨some "f", 8, 9⟩,
               MemoryRegion.Ram ⟨some "r", 2, 3⟩,
               MemoryRegion.Generic ⟨none, 0, 1⟩]).ram =
        ([MemoryRegion.Nvm ⟨some "f", 8, 9⟩,
          MemoryRegion.Ram ⟨some "r", 2, 3⟩,
          MemoryRegion.Generic ⟨none, 0, 1⟩].filterMap ramOf) ∧
    (classify [MemoryRegion.Nvm ⟨some "f", 8, 9⟩,
               MemoryRegion.Ram ⟨some "r", 2, 3⟩,
               MemoryRegion.Generic ⟨none, 0, 1⟩]).flash =
        ([MemoryRegion.Nvm ⟨some "f", 8, 9⟩,
          MemoryRegion.Ram ⟨some "r", 2, 3⟩,
          MemoryRegion.Generic ⟨none, 0, 1⟩].filterMap nvmOf) ∧
    (classify [MemoryRegion.Nvm ⟨some "f", 8, 9⟩,
               MemoryRegion.Ram ⟨some "r", 2, 3⟩,
               MemoryRegion.Generic ⟨none, 0, 1⟩]).generic =
        ([MemoryRegion.Nvm ⟨some "f", 8, 9⟩,
          MemoryRegion.Ram ⟨some "r", 2, 3⟩,
          MemoryRegion.Generic ⟨none, 0, 1⟩].filterMap genOf) ∧
    (classify [MemoryRegion.Nvm ⟨some "f", 8, 9⟩,
               MemoryRegion.Ram ⟨some "r", 2, 3⟩,
               MemoryRegion.Generic ⟨none, 0, 1⟩]).ram.length +
      (classify [MemoryRegion.Nvm ⟨some "f", 8, 9⟩,
                 MemoryRegion.Ram ⟨some "r", 2, 3⟩,
                 MemoryRegion.Generic ⟨none, 0, 1⟩]).flash.length +
      (classify [MemoryRegion.Nvm ⟨some "f", 8, 9⟩,
                 MemoryRegion.Ram ⟨some "r", 2, 3⟩,
                 MemoryRegion.Generic ⟨none, 0, 1⟩]).generic.length = 3 :=
  c2_classification_partition
    [MemoryRegion.Nvm ⟨some "f", 8, 9⟩, MemoryRegion.Ram ⟨some "r", 2, 3⟩,
     MemoryRegion.Generic ⟨none, 0, 1⟩]

/-- Claim C5: `0x1ba01477` resolves to the STM32F1-family name
"STM32F103RC" with no registration call, and `0x2ba01477` resolves to the
STM32L4-family name "STM32L433RCTx" with exactly one target-description
registration call; the same holds when the inputs are spelled with the
static identifier constants. -/
theorem c5_resolve_known_ids :
    resolve 0x1ba01477 = ⟨"STM32F103RC", 0⟩ ∧
    resolve 0x2ba01477 = ⟨"STM32L433RCTx", 1⟩ ∧
    resolve STM32F1xID = ⟨"STM32F103RC", 0⟩ ∧
    resolve STM32L4xID = ⟨"STM32L433RCTx", 1⟩ ∧
    resolve STM32F2xID = ⟨"STM32L433RCTx", 1⟩ := by
  refine ⟨rfl, rfl, rfl, rfl, rfl⟩

/-- Claim C9: the constants `STM32F2xID` and `STM32L4xID` are the same
32-bit value `0x2ba01477`, that value resolves to the STM32L4 outcome, and
the range of `resolve` contains only the STM32L4 name, the STM32F1 name and
the `Unknown(id)` names — no identifier maps distinctly to STM32F2. -/
theorem c9_f2_id_ambiguous :
    STM32F2xID = STM32L4xID ∧ STM32F2xID = 0x2ba01477 ∧
    resolve STM32F2xID = resolve STM32L4xID ∧
    ∀ id : Nat, (resolve id).name = "STM32L433RCTx" ∨
      (resolve id).name = "STM32F103RC" ∨
      (resolve id).name = unknownName id := by
  refine ⟨rfl, rfl, rfl, ?_⟩
  intro id
  by_cases h1 : id = 0x2ba01477 <;> by_cases h2 : id = 0x1ba01477 <;>
    simp [resolve, h1, h2]

/-- Concrete instance: an untabulated identifier resolves to one of the
three possible outcome shapes. -/
theorem c9_f2_id_ambiguous_witness :
    (resolve 7).name = "STM32L433RCTx" ∨ (resolve 7).name = "STM32F103RC" ∨
      (resolve 7).name = unknownName 7 :=
  c9_f2_id_ambiguous.2.2.2 7

/-- Claim C8: the progress reporter is total and fault-free — every
`ProgressEvent` variant is handled and returns normally (`.ok` with its
printed lines); no variant raises a fault that could abort the
orchestrator. -/
theorem c8_handler_total_no_fault :
    ∀ e : ProgressEvent, ∃ ls, flash_progress_handler e = .ok ls := by
  intro e
  cases e <;> exact ⟨_, rfl⟩

/-- Concrete instance: the handler returns normally on a failure event. -/
theorem c8_handler_total_no_fault_witness :
    ∃ ls, flash_progress_handler .FailedErasing = .ok ls :=
  c8_handler_total_no_fault .FailedErasing

theorem mem_regionPrints {a : Action} {c : Classified}
    (h : a ∈ regionPrints c) : ∃ s, a = .printLine s := by
  simp only [regionPrints, List.mem_append, List.mem_map] at h
  rcases h with (⟨r, _, rfl⟩ | ⟨r, _, rfl⟩) | ⟨r, _, rfl⟩ <;> exact ⟨_, rfl⟩

theorem mainIdentify_shapes (env : Env) {a : Action}
    (h : a ∈ (mainIdentify env).1) :
    a = .listProbes ∨ a = .openProbe 0 ∨ a = .attachUnspecified ∨
      a = .readIdentifier ∨ ∃ s, a = .printLine s := by
  rcases env with ⟨probes, openOk, auOk, idRead, chip, o2, aOk, mm, cOk, rhOk, hr, dl⟩
  cases probes with
  | nil =>
    simp only [mainIdentify, List.mem_cons, List.mem_append, List.mem_map,
      List.map_nil, List.mem_singleton, List.nil_append] at h
    aesop
  | cons p ps =>
    cases openOk <;> cases auOk <;> rcases idRead with _ | (_ | info) <;>
      simp only [mainIdentify, List.mem_cons, List.mem_append, List.mem_map,
        List.mem_singleton, Bool.false_eq_true, if_false, if_true] at h <;>
      aesop

theorem download_not_mem_mainIdentify (env : Env) :
    Action.download ∉ (mainIdentify env).1 := by
  intro h
  rcases mainIdentify_shapes env h with h | h | h | h | ⟨s, h⟩ <;>
    exact Action.noConfusion h

theorem mainIdentify_continue {env : Env} (hp : env.probes ≠ [])
    (ho : env.openOk = true) (ha : env.attachUnspecifiedOk = true)
    (hi : env.idRead ≠ none) : (mainIdentify env).2 = none := by
  rcases env with ⟨probes, openOk, auOk, idRead, chip, o2, aOk, mm, cOk, rhOk, hr, dl⟩
  cases probes with
  | nil => simp at hp
  | cons p ps =>
    simp only at ho ha hi
    rcases idRead with _ | (_ | info) <;> simp_all [mainIdentify]

theorem fullMain_continue {env : Env} (h : (mainIdentify env).2 = none) :
    (fullMain env).1 = (mainIdentify env).1 ++ (pipeline env).1 ∧
      (fullMain env).2 = (pipeline env).2 := by
  unfold fullMain
  rcases hmi : mainIdentify env with ⟨tr, o⟩
  rw [hmi] at h
  simp at h
  subst h
  simp

theorem fullMain_stop {env : Env} {o : Outcome}
    (h : (mainIdentify env).2 = some o) :
    (fullMain env).1 = (mainIdentify env).1 ∧ (fullMain env).2 = o := by
  unfold fullMain
  rcases hmi : mainIdentify env with ⟨tr, o2⟩
  rw [hmi] at h
  simp at h
  subst h
  simp

theorem haltFlash_download {env : Env}
    (h : Action.download ∈ (haltFlash env).1) :
    env.coreOk = true ∧ env.resetHaltOk = true ∧
      env.haltedResult = some true := by
  rcases env with ⟨probes, openOk, auOk, idRead, chip, o2, aOk, mm, cOk, rhOk, hr, dl⟩
  cases cOk <;> cases rhOk <;> rcases hr with _ | (_ | _) <;> cases dl <;>
    simp_all [haltFlash]

theorem haltFlash_trace_halted {env : Env} (hc : env.coreOk = true)
    (hr : env.resetHaltOk = true) (hh : env.haltedResult = some true) :
    (haltFlash env).1 =
      [.selectCore 0, .resetAndHalt, .queryHalted, .download] := by
  cases hdl : env.downloadOk <;> simp [haltFlash, hc, hr, hh, hdl]

theorem haltFlash_not_halted {env : Env}
    (h : env.coreOk = false ∨
      (env.resetHaltOk = true ∧ env.haltedResult = some false)) :
    Action.download ∉ (haltFlash env).1 ∧
      Action.printLine "ERROR => Failed to halt core" ∈ (haltFlash env).1 := by
  rcases h with hc | ⟨hrh, hh⟩
  · simp [haltFlash, hc]
  · cases hcore : env.coreOk <;> simp [haltFlash, hcore, hrh, hh]

theorem pipeline_download {env : Env}
    (h : Action.download ∈ (pipeline env).1) :
    env.haltedResult = some true ∧
      List.Sublist [Action.queryHalted, Action.download] (pipeline env).1 := by
  cases ho2 : env.open2Ok with
  | false => simp [pipeline, ho2, List.mem_replicate] at h
  | true =>
    cases hat : env.attachOk with
    | false => simp [pipeline, ho2, hat, List.mem_replicate] at h
    | true =>
      rcases hf : (classify env.memoryMap).flash with _ | ⟨f, fs⟩
      · simp [pipeline, ho2, hat, hf, List.mem_replicate, regionPrints,
          regionPrint] at h
      · rcases hrm : (classify env.memoryMap).ram with _ | ⟨r, rs⟩
        · simp [pipeline, ho2, hat, hf, hrm, List.mem_replicate,
            regionPrints, regionPrint] at h
        · have hmem : Action.download ∈ (haltFlash env).1 := by
            simp [pipeline, ho2, hat, hf, hrm, List.mem_replicate,
              regionPrints, regionPrint] at h
            exact h
          obtain ⟨hc, hrh, hh⟩ := haltFlash_download hmem
          refine ⟨hh, ?_⟩
          have hsub : List.Sublist [Action.queryHalted, Action.download]
              (haltFlash env).1 := by
            rw [haltFlash_trace_halted hc hrh hh]
            exact ((List.Sublist.refl _).cons _).cons _
          have hpipe : (pipeline env).1 =
              (List.replicate (resolve env.chipId).registrations
                  Action.registerTarget
                ++ [Action.printLine
                      ("Found target: " ++ (resolve env.chipId).name),
                    Action.openProbe 0]
                ++ [Action.attach (resolve env.chipId).name]
                ++ [Action.printLine "pog"]
                ++ regionPrints (classify env.memoryMap)
                ++ [Action.printLine "cores"]) ++ (haltFlash env).1 := by
            simp [pipeline, ho2, hat, hf, hrm]
          rw [hpipe]
          exact hsub.trans (List.sublist_append_right _ _)

/-- Claim C1: halt confirmation gates flashing.  In every execution of the
workflow, a download action occurs only when the halt query answered
`some true`, and the halt query precedes the download in the trace; and in
any execution that reaches the halt step, a core that cannot be selected or
that answers the halt query with `false` yields zero download actions and
the "ERROR => Failed to halt core" report instead. -/
theorem c1_flash_gated_on_halt :
    (∀ env : Env, Action.download ∈ (fullMain env).1 →
      env.haltedResult = some true ∧
        List.Sublist [Action.queryHalted, Action.download] (fullMain env).1) ∧
    (∀ env : Env, env.probes ≠ [] → env.openOk = true →
      env.attachUnspecifiedOk = true → env.idRead ≠ none →
      env.open2Ok = true → env.attachOk = true →
      (classify env.memoryMap).flash ≠ [] →
      (classify env.memoryMap).ram ≠ [] →
      (env.coreOk = false ∨
        (env.resetHaltOk = true ∧ env.haltedResult = some false)) →
      Action.download ∉ (fullMain env).1 ∧
        Action.printLine "ERROR => Failed to halt core" ∈ (fullMain env).1) := by
  constructor
  · intro env h
    rcases h2 : (mainIdentify env).2 with _ | o
    · obtain ⟨htr, _⟩ := fullMain_continue h2
      rw [htr] at h ⊢
      rcases List.mem_append.1 h with h | h
      · exact absurd h (download_not_mem_mainIdentify env)
      · obtain ⟨hh, hsub⟩ := pipeline_download h
        exact ⟨hh, hsub.trans (List.sublist_append_right _ _)⟩
    · obtain ⟨htr, _⟩ := fullMain_stop h2
      rw [htr] at h
      exact absurd h (download_not_mem_mainIdentify env)
  · intro env hp ho ha hi ho2 hat hf hrm hhalt
    obtain ⟨htr, _⟩ := fullMain_continue (mainIdentify_continue hp ho ha hi)
    rw [htr]
    obtain ⟨hnd, herr⟩ := haltFlash_not_halted hhalt
    constructor
    · intro h
      rcases List.mem_append.1 h with h | h
      · exact absurd h (download_not_mem_mainIdentify env)
      · rcases hfl : (classify env.memoryMap).flash with _ | ⟨f, fs⟩
        · exact hf hfl
        rcases hrml : (classify env.memoryMap).ram with _ | ⟨r, rs⟩
        · exact hrm hrml
        have : Action.download ∈ (haltFlash env).1 := by
          simp [pipeline, ho2, hat, hfl, hrml, List.mem_replicate,
            regionPrints, regionPrint] at h
          exact h
        exact hnd this
    · apply List.mem_append_right
      rcases hfl : (classify env.memoryMap).flash with _ | ⟨f, fs⟩
      · exact absurd hfl hf
      rcases hrml : (classify env.memoryMap).ram with _ | ⟨r, rs⟩
      · exact absurd hrml hrm
      simp [pipeline, ho2, hat, hfl, hrml]
      tauto

/-- Concrete instance of the halt gate: in `envHaltFalse` the core answers
the halt query with `false`, no download occurs and the halt failure is
reported. -/
theorem c1_flash_gated_on_halt_witness :
    (envHaltFalse.resetHaltOk = true ∧
      envHaltFalse.haltedResult = some false) ∧
    Action.download ∉ (fullMain envHaltFalse).1 ∧
      Action.printLine "ERROR => Failed to halt core" ∈
        (fullMain envHaltFalse).1 :=
  ⟨⟨rfl, rfl⟩,
   c1_flash_gated_on_halt.2 envHaltFalse (by decide) rfl rfl (by decide)
     rfl rfl (by decide) (by decide) (Or.inr ⟨rfl, rfl⟩)⟩

/-- Claim C3 counterexample: with chip identifier 5 — not in the static
table — the workflow as written does make an attach call with the
`Unknown(5)`-derived target name (main.rs line 84 passes `target_name` to
`attach` unconditionally). -/
theorem c3_unknown_attach_counterexample :
    Action.attach (unknownName 5) ∈ (fullMain envUnknownId).1 := by decide

/-- Claim C3 (amended): every identifier outside the static table resolves
to the distinct `Unknown(id)` outcome — never a default target name and
with no registration call — but the workflow then uses exactly that name in
its attach call (which is left to fail at the attach step) whenever the
attach step is reached. -/
theorem c3_unknown_outcome_attached :
    ∀ id : Nat, id ≠ 0x2ba01477 → id ≠ 0x1ba01477 →
      resolve id = ⟨unknownName id, 0⟩ ∧
      ∀ env : Env, env.chipId = id → env.open2Ok = true →
        Action.attach (unknownName id) ∈ (pipeline env).1 := by
  intro id h1 h2
  have hres : resolve id = ⟨unknownName id, 0⟩ := by
    simp [resolve, h1, h2]
  refine ⟨hres, ?_⟩
  intro env hc ho2
  cases hat : env.attachOk
  · simp [pipeline, ho2, hat, hc, hres]
  · rcases hfl : (classify env.memoryMap).flash with _ | ⟨f, fs⟩
    · simp [pipeline, ho2, hat, hc, hres, hfl]
    rcases hrml : (classify env.memoryMap).ram with _ | ⟨r, rs⟩ <;>
      simp [pipeline, ho2, hat, hc, hres, hfl, hrml]

/-- Concrete instance: identifier 5 resolves to `Unknown(5)` and the
pipeline attaches with that name. -/
theorem c3_unknown_outcome_attached_witness :
    resolve 5 = ⟨unknownName 5, 0⟩ ∧
      Action.attach (unknownName 5) ∈ (pipeline envUnknownId).1 :=
  ⟨(c3_unknown_outcome_attached 5 (by decide) (by decide)).1,
   (c3_unknown_outcome_attached 5 (by decide) (by decide)).2
     envUnknownId rfl rfl⟩

/-- Claim C4 counterexample: with two NonVolatile regions classified, the
workflow does not fail with a distinct error before flashing — it silently
takes `flash[0]`, proceeds, downloads, and the run ends in `Ok(())`. -/
theorem c4_two_flash_counterexample :
    (classify envTwoFlash.memoryMap).flash.length = 2 ∧
    Action.download ∈ (fullMain envTwoFlash).1 ∧
    (fullMain envTwoFlash).2 = .ok := by decide

/-- Claim C4 (amended): an empty NonVolatile or RAM group makes the
workflow abort with an out-of-bounds indexing panic before any flashing —
not with a distinct no-flash-region error — while a group with more than
one region causes no failure at all: the workflow silently proceeds with
the first element, its outcome determined solely by the halt/flash step. -/
theorem c4_empty_group_panics :
    (∀ env : Env, env.open2Ok = true → env.attachOk = true →
      ((classify env.memoryMap).flash = [] ∨
        (classify env.memoryMap).ram = []) →
      (pipeline env).2 = .panic ∧ Action.download ∉ (pipeline env).1) ∧
    (∀ env : Env, env.open2Ok = true → env.attachOk = true →
      (classify env.memoryMap).flash ≠ [] →
      (classify env.memoryMap).ram ≠ [] →
      (pipeline env).2 = (haltFlash env).2) := by
  constructor
  · intro env ho2 hat h
    rcases h with hfl | hrml
    · constructor
      · simp [pipeline, ho2, hat, hfl]
      · intro h
        simp [pipeline, ho2, hat, hfl, List.mem_replicate, regionPrints,
          regionPrint] at h
    · rcases hfl : (classify env.memoryMap).flash with _ | ⟨f, fs⟩
      · constructor
        · simp [pipeline, ho2, hat, hfl]
        · intro h
          simp [pipeline, ho2, hat, hfl, List.mem_replicate, regionPrints,
            regionPrint] at h
      · constructor
        · simp [pipeline, ho2, hat, hfl, hrml]
        · intro h
          simp [pipeline, ho2, hat, hfl, hrml, List.mem_replicate,
            regionPrints, regionPrint] at h
  · intro env ho2 hat hf hrm
    rcases hfl : (classify env.memoryMap).flash with _ | ⟨f, fs⟩
    · exact absurd hfl hf
    rcases hrml : (classify env.memoryMap).ram with _ | ⟨r, rs⟩
    · exact absurd hrml hrm
    simp [pipeline, ho2, hat, hfl, hrml]

/-- Concrete instance: with no NonVolatile region the pipeline panics
before any download. -/
theorem c4_empty_group_panics_witness :
    (classify envNoFlash.memoryMap).flash = [] ∧
    (pipeline envNoFlash).2 = .panic ∧
      Action.download ∉ (pipeline envNoFlash).1 :=
  ⟨by decide,
   c4_empty_group_panics.1 envNoFlash rfl rfl (Or.inl (by decide))⟩

/-- Claim C7 counterexample: with an empty probe list the program aborts
with an index-out-of-bounds panic at `probe_list[0]` (main.rs line 52) —
not with a ProbeOpenError-style error result — and no probe-open call is
ever reached. -/
theorem c7_no_probes_counterexample :
    (activeMain envNoProbes).2 = .panic ∧
    (activeMain envNoProbes).2 ≠ .err "ProbeOpen" ∧
    Action.openProbe 0 ∉ (activeMain envNoProbes).1 := by decide

/-- Claim C7 (amended): when at least one probe is found and opening it
fails, the run terminates with the distinct probe-open error; but the
indexing of the first probe is performed unconditionally, so the
no-probes case aborts with an index panic before any open call rather
than taking a defined ProbeOpenError path. -/
theorem c7_probe_open_behaviour :
    (∀ env : Env, env.probes ≠ [] → env.openOk = false →
      (activeMain env).2 = .err "ProbeOpen") ∧
    (∀ env : Env, env.probes = [] →
      (activeMain env).2 = .panic ∧
        Action.openProbe 0 ∉ (activeMain env).1) := by
  constructor
  · intro env hp ho
    rcases hpl : env.probes with _ | ⟨p, ps⟩
    · exact absurd hpl hp
    simp [activeMain, mainIdentify, hpl, ho]
  · intro env hp
    constructor
    · simp [activeMain, mainIdentify, hp]
    · intro h
      simp [activeMain, mainIdentify, hp] at h

/-- Concrete instance: one probe found, open fails, the run ends with the
probe-open error. -/
theorem c7_probe_open_behaviour_witness :
    envOpenFail.probes ≠ [] ∧ envOpenFail.openOk = false ∧
      (activeMain envOpenFail).2 = .err "ProbeOpen" :=
  ⟨by decide, rfl, c7_probe_open_behaviour.1 envOpenFail (by decide) rfl⟩

/-- Claim C10: the compiled program as written never resolves a target,
attaches a named session, registers a target description, selects or halts
a core, or downloads firmware — its trace contains none of those actions
for any environment — and whenever discovery, open, attach and the
identification read succeed, `main` returns `Ok(())` right after the
identification read. -/
theorem c10_active_main_never_flashes :
    ∀ env : Env,
      Action.download ∉ (activeMain env).1 ∧
      (∀ s, Action.attach s ∉ (activeMain env).1) ∧
      Action.registerTarget ∉ (activeMain env).1 ∧
      (∀ i, Action.selectCore i ∉ (activeMain env).1) ∧
      Action.resetAndHalt ∉ (activeMain env).1 ∧
      Action.queryHalted ∉ (activeMain env).1 ∧
      (env.probes ≠ [] → env.openOk = true →
        env.attachUnspecifiedOk = true → env.idRead ≠ none →
        (activeMain env).2 = .ok) := by
  intro env
  have hshape : ∀ a : Action, a ∈ (activeMain env).1 →
      a = .listProbes ∨ a = .openProbe 0 ∨ a = .attachUnspecified ∨
        a = .readIdentifier ∨ ∃ s, a = .printLine s := by
    intro a h
    exact mainIdentify_shapes env h
  refine ⟨?_, ?_, ?_, ?_, ?_, ?_, ?_⟩
  · intro h
    rcases hshape _ h with h | h | h | h | ⟨s, h⟩ <;> exact Action.noConfusion h
  · intro s h
    rcases hshape _ h with h | h | h | h | ⟨t, h⟩ <;> exact Action.noConfusion h
  · intro h
    rcases hshape _ h with h | h | h | h | ⟨s, h⟩ <;> exact Action.noConfusion h
  · intro i h
    rcases hshape _ h with h | h | h | h | ⟨s, h⟩ <;> exact Action.noConfusion h
  · intro h
    rcases hshape _ h with h | h | h | h | ⟨s, h⟩ <;> exact Action.noConfusion h
  · intro h
    rcases hshape _ h with h | h | h | h | ⟨s, h⟩ <;> exact Action.noConfusion h
  · intro hp ho ha hi
    have := mainIdentify_continue hp ho ha hi
    simp [activeMain, this]

/-- Concrete instance: in the all-success environment the compiled program
performs no download and returns `Ok(())`. -/
theorem c10_active_main_never_flashes_witness :
    Action.download ∉ (activeMain envBase).1 ∧ (activeMain envBase).2 = .ok :=
  ⟨(c10_active_main_never_flashes envBase).1,
   (c10_active_main_never_flashes envBase).2.2.2.2.2.2 (by decide) rfl rfl
     (by decide)⟩

/-- Claim C6: in the staged flashing state machine the stages occur
strictly in the order Fill, Erase, Program: each stage's start event
precedes its per-unit events and its terminal finished-or-failed event,
Erase starts only after Fill finished and Program only after both earlier
stages finished, and a failed event at any stage means no later stage's
start event fires. -/
theorem c6_flash_stage_ordering :
    ∀ (layout : Nat) (fillPages eraseSectors progPages : List (Nat × Nat))
      (fo eo po : StageOutcome),
      (∀ u ∈ fillPages,
        List.Sublist
          [ProgressEvent.StartedFilling, ProgressEvent.PageFilled u.1 u.2]
          (flashEvents layout fillPages eraseSectors progPages fo eo po)) ∧
      (List.Sublist
        [ProgressEvent.StartedFilling,
         if fo = .ok then ProgressEvent.FinishedFilling
           else ProgressEvent.FailedFilling]
        (flashEvents layout fillPages eraseSectors progPages fo eo po)) ∧
      (fo = .ok → ∀ u ∈ eraseSectors,
        List.Sublist
          [ProgressEvent.StartedErasing, ProgressEvent.SectorErased u.1 u.2]
          (flashEvents layout fillPages eraseSectors progPages fo eo po)) ∧
      (fo = .ok →
        List.Sublist
          [ProgressEvent.StartedErasing,
           if eo = .ok then ProgressEvent.FinishedErasing
             else ProgressEvent.FailedErasing]
          (flashEvents layout fillPages eraseSectors progPages fo eo po)) ∧
      (fo = .ok → eo = .ok → ∀ u ∈ progPages,
        List.Sublist
          [ProgressEvent.StartedProgramming,
           ProgressEvent.PageProgrammed u.1 u.2]
          (flashEvents layout fillPages eraseSectors progPages fo eo po)) ∧
      (fo = .ok → eo = .ok →
        List.Sublist
          [ProgressEvent.StartedProgramming,
           if po = .ok then ProgressEvent.FinishedProgramming
             else ProgressEvent.FailedProgramming]
          (flashEvents layout fillPages eraseSectors progPages fo eo po)) ∧
      (fo = .ok →
        List.Sublist
          [ProgressEvent.StartedFilling, ProgressEvent.FinishedFilling,
           ProgressEvent.StartedErasing]
          (flashEvents layout fillPages eraseSectors progPages fo eo po)) ∧
      (fo = .ok → eo = .ok →
        List.Sublist
          [ProgressEvent.StartedFilling, ProgressEvent.FinishedFilling,
           ProgressEvent.StartedErasing, ProgressEvent.FinishedErasing,
           ProgressEvent.StartedProgramming]
          (flashEvents layout fillPages eraseSectors progPages fo eo po)) ∧
      (fo = .fail →
        ProgressEvent.StartedErasing ∉
          flashEvents layout fillPages eraseSectors progPages fo eo po ∧
        ProgressEvent.StartedProgramming ∉
          flashEvents layout fillPages eraseSectors progPages fo eo po) ∧
      (fo = .ok → eo = .fail →
        ProgressEvent.StartedProgramming ∉
          flashEvents layout fillPages eraseSectors progPages fo eo po) := by
  intro layout fillPages eraseSectors progPages fo eo po
  have hskip : ∀ (m l r : List ProgressEvent),
      List.Sublist l r → List.Sublist l (m ++ r) := fun m l r h =>
    h.trans (List.sublist_append_right m r)
  refine ⟨?_, ?_, ?_, ?_, ?_, ?_, ?_, ?_, ?_, ?_⟩
  · intro u hu
    simp [flashEvents, stageTrace]
    exact List.Sublist.cons _ (List.Sublist.cons₂ _
      (List.singleton_sublist.2
        (List.mem_append_left _ (List.mem_map_of_mem _ hu))))
  · simp [flashEvents, stageTrace]
  · rintro rfl u hu
    simp [flashEvents, stageTrace]
    exact List.Sublist.cons _ (List.Sublist.cons _ (hskip _ _ _
      (List.Sublist.cons _ (List.Sublist.cons₂ _
        (List.singleton_sublist.2
          (List.mem_append_left _ (List.mem_map_of_mem _ hu)))))))
  · rintro rfl
    simp [flashEvents, stageTrace]
    exact List.Sublist.cons _ (List.Sublist.cons _ (hskip _ _ _
      (List.Sublist.cons _ (List.Sublist.cons₂ _
        (List.singleton_sublist.2
          (List.mem_append_right _ (List.mem_cons_self _ _)))))))
  · rintro rfl rfl u hu
    simp [flashEvents, stageTrace]
    exact List.Sublist.cons _ (List.Sublist.cons _ (hskip _ _ _
      (List.Sublist.cons _ (List.Sublist.cons _ (hskip _ _ _
        (List.Sublist.cons _ (List.Sublist.cons₂ _
          (List.singleton_sublist.2
            (List.mem_append_left _ (List.mem_map_of_mem _ hu))))))))))
  · rintro rfl rfl
    simp [flashEvents, stageTrace]
    exact List.Sublist.cons _ (List.Sublist.cons _ (hskip _ _ _
      (List.Sublist.cons _ (List.Sublist.cons _ (hskip _ _ _
        (List.Sublist.cons _ (List.Sublist.cons₂ _
          (List.singleton_sublist.2
            (List.mem_append_right _ (List.mem_cons_self _ _))))))))))
  · rintro rfl
    simp [flashEvents, stageTrace]
  · rintro rfl rfl
    simp [flashEvents, stageTrace]
    exact List.Sublist.cons _ (List.Sublist.cons₂ _ (hskip _ _ _
      (List.Sublist.cons₂ _ (List.Sublist.cons₂ _ (hskip _ _ _
        (List.Sublist.cons₂ _ (List.Sublist.cons₂ _
          (List.nil_sublist _))))))))
  · rintro rfl
    constructor <;> simp [flashEvents, stageTrace]
  · rintro rfl rfl
    simp [flashEvents, stageTrace]

/-- Concrete instance: with a failing Erase stage, Fill still runs to
completion before Erase starts and the Program stage never starts. -/
theorem c6_flash_stage_ordering_witness :
    List.Sublist
      [ProgressEvent.StartedFilling, ProgressEvent.FinishedFilling,
       ProgressEvent.StartedErasing]
      (flashEvents 0 [(4, 1)] [(2, 1)] [] .ok .fail .ok) ∧
    ProgressEvent.StartedProgramming ∉
      flashEvents 0 [(4, 1)] [(2, 1)] [] .ok .fail .ok :=
  ⟨(c6_flash_stage_ordering 0 [(4, 1)] [(2, 1)] [] .ok .fail .ok).2.2.2.2.2.2.1
     rfl,
   (c6_flash_stage_ordering 0 [(4, 1)] [(2, 1)] []
     .ok .fail .ok).2.2.2.2.2.2.2.2.2 rfl rfl⟩

end MartelProgrammer
